import Mathlib

/-!
Shallow embedding of the Call2FA Python SDK (`src/call2fa/sdk.py`).

The SDK is a single class `Client`.  Construction validates the login and
password, then performs one authentication POST and stores the returned JWT.
Each public operation validates its string arguments, builds one HTTP request
carrying the `Authorization: Bearer <jwt>` header, and interprets the HTTP
outcome: an expected status returns the decoded JSON body, any other status or
a transport fault raises a `ClientException`.

The embedding makes the network explicit: an operation receives an `Outcome`
(the oracle for what the HTTP exchange would do) and returns, besides its
result, the list of requests it issued, so that "zero network calls" and
header/URI contents are provable facts.  JSON bodies are modelled as
association lists of string pairs.  The single Python exception type is
modelled as an inductive `ClientError` with one constructor per raise site,
carrying the data interpolated into the Python message; `ClientError.message`
renders the exact Python message text and `ClientError.kind` classifies each
error into the four kinds of the design (InvalidArgument, AuthenticationFailed,
RequestFailed, TransportError).
-/

/-- A decoded JSON object body: an association list of key/value pairs. -/
def Mapping : Type := List (String × String)

instance : DecidableEq Mapping := by
  unfold Mapping
  infer_instance

/-- Look a key up in a decoded JSON object, like Python `dict.get`. -/
def Mapping.get (m : Mapping) (k : String) : Option String :=
  List.lookup k m

/-- HTTP verb used by the SDK: `session.post` or `session.get`. -/
inductive HttpMethod where
  | post
  | get
deriving DecidableEq, Repr

/-- One HTTP request as the SDK hands it to `requests`: verb, full URI, the
headers dict and the JSON body dict. -/
structure HttpRequest where
  verb : HttpMethod
  uri : String
  headers : List (String × String)
  body : List (String × String)
deriving DecidableEq, Repr

/-- An HTTP response: status code and decoded JSON body. -/
structure HttpResponse where
  statusCode : Nat
  body : Mapping
deriving DecidableEq

/-- What the network does for one exchange: either a response arrives, or the
transport fails (`requests.exceptions.RequestException`) with a cause. -/
inductive Outcome where
  | response (r : HttpResponse)
  | fault (cause : String)
deriving DecidableEq

/-- The operation during which a transport fault was caught; fixes the text of
the wrapping message. -/
inductive TransportSite where
  | authorization
  | call
  | info
deriving DecidableEq, Repr

/-- The Python SDK raises a single `ClientException` with a message; this
inductive has one constructor per raise site, carrying the data the message
interpolates. -/
inductive ClientError where
  /-- "The {field} parameter is empty" -/
  | invalidArgument (field : String)
  /-- "Incorrect status code: {statusCode} on authorization step" -/
  | authIncorrectStatus (statusCode : Nat)
  /-- "JWT not found in authentication response." -/
  | authJwtMissing
  /-- "Incorrect status code: {statusCode}" plus " on {step} step" when a
  step is named (the call operations name step "call"; `info` names none). -/
  | requestIncorrectStatus (statusCode : Nat) (step : Option String)
  /-- "Cannot perform a request ...: {cause}" -/
  | transportError (site : TransportSite) (cause : String)
deriving DecidableEq, Repr

/-- The exact Python `ClientException` message for each error. -/
def ClientError.message : ClientError → String
  | .invalidArgument field => "The " ++ field ++ " parameter is empty"
  | .authIncorrectStatus statusCode =>
      "Incorrect status code: " ++ toString statusCode ++ " on authorization step"
  | .authJwtMissing => "JWT not found in authentication response."
  | .requestIncorrectStatus statusCode step =>
      "Incorrect status code: " ++ toString statusCode ++
        (match step with
         | some s => " on " ++ s ++ " step"
         | none => "")
  | .transportError .authorization cause =>
      "Cannot perform a request on authorization step: " ++ cause
  | .transportError .call cause =>
      "Cannot perform a request on call step: " ++ cause
  | .transportError .info cause =>
      "Cannot perform a request to get the call info: " ++ cause

/-- The four error kinds of the design. -/
inductive ErrorKind where
  | invalidArgument
  | authenticationFailed
  | requestFailed
  | transportError
deriving DecidableEq, Repr

/-- Classify each concrete error into its design kind. -/
def ClientError.kind : ClientError → ErrorKind
  | .invalidArgument _ => .invalidArgument
  | .authIncorrectStatus _ => .authenticationFailed
  | .authJwtMissing => .authenticationFailed
  | .requestIncorrectStatus _ _ => .requestFailed
  | .transportError _ _ => .transportError

/-- The fixed base URI set in `Client.__init__`. -/
def base_uri_const : String := "https://api-call2fa.rikkicom.io"

/-- `Client._make_full_uri`, on its three inputs:
`f"{base_uri}/{version}/{method}/"`. -/
def make_full_uri_parts (base_uri version method : String) : String :=
  base_uri ++ "/" ++ version ++ "/" ++ method ++ "/"

/-- The client state: the fields `Client.__init__` stores on `self`.  The
session object carries no SDK-visible state and is omitted; `jwt` is only
ever exposed once authentication has stored a token. -/
structure Client where
  api_login : String
  api_password : String
  version : String
  base_uri : String
  jwt : String
deriving DecidableEq

/-- `Client._make_full_uri`. -/
def Client.make_full_uri (c : Client) (method : String) : String :=
  make_full_uri_parts c.base_uri c.version method

/-- `Client._receive_jwt`: POST `{login, password}` to `.../auth/`; on 200
with a truthy `jwt` field return the token, on 200 without one fail with the
JWT-missing error, on any other status fail with the status error, and on a
transport fault fail with the wrapped cause.  Returns the requests issued. -/
def receive_jwt (api_login api_password version base_uri : String)
    (out : Outcome) : Except ClientError String × List HttpRequest :=
  let auth_data := [("login", api_login), ("password", api_password)]
  let uri := make_full_uri_parts base_uri version "auth"
  let req : HttpRequest := ⟨.post, uri, [], auth_data⟩
  match out with
  | .response r =>
      if r.statusCode = 200 then
        match r.body.get "jwt" with
        | some j => if j = "" then (.error .authJwtMissing, [req]) else (.ok j, [req])
        | none => (.error .authJwtMissing, [req])
      else
        (.error (.authIncorrectStatus r.statusCode), [req])
  | .fault e => (.error (.transportError .authorization e), [req])

/-- `Client.__init__`: validate the credentials, then authenticate with
version `"v1"` and the fixed base URI; on success the client holds the
returned token.  Returns the requests issued. -/
def Client.init (login password : String) (out : Outcome) :
    Except ClientError Client × List HttpRequest :=
  if login = "" then (.error (.invalidArgument "login"), [])
  else if password = "" then (.error (.invalidArgument "password"), [])
  else
    match receive_jwt login password "v1" base_uri_const out with
    | (.ok j, reqs) => (.ok ⟨login, password, "v1", base_uri_const, j⟩, reqs)
    | (.error e, reqs) => (.error e, reqs)

/-- Result of one public operation: the client afterwards (the Python methods
never assign to `self`, so it is passed through unchanged), the returned
mapping or raised error, and the requests issued. -/
structure OpResult where
  client : Client
  result : Except ClientError Mapping
  requests : List HttpRequest

/-- `Client.call`: validate the phone number, POST
`{phone_number, callback_url}` to `.../call/` with the bearer header; 201
returns the decoded body, any other status fails with the status error naming
the "call" step, a transport fault fails with the wrapped cause. -/
def Client.call (c : Client) (phone_number callback_url : String)
    (out : Outcome) : OpResult :=
  if phone_number = "" then ⟨c, .error (.invalidArgument "phoneNumber"), []⟩
  else
    let headers := [("Authorization", "Bearer " ++ c.jwt)]
    let call_data := [("phone_number", phone_number), ("callback_url", callback_url)]
    let uri := c.make_full_uri "call"
    let req : HttpRequest := ⟨.post, uri, headers, call_data⟩
    match out with
    | .response r =>
        if r.statusCode ≠ 201 then
          ⟨c, .error (.requestIncorrectStatus r.statusCode (some "call")), [req]⟩
        else
          ⟨c, .ok r.body, [req]⟩
    | .fault e => ⟨c, .error (.transportError .call e), [req]⟩

/-- `Client.call_via_last_digits`: validate phone number and pool id, POST
`{phone_number}` to `.../pool/{pool_id}/call/six-digits/` or
`.../pool/{pool_id}/call/` depending on the flag; same outcome contract as
`Client.call`. -/
def Client.call_via_last_digits (c : Client)
    (phone_number pool_id : String) (use_six_digits : Bool)
    (out : Outcome) : OpResult :=
  if phone_number = "" then ⟨c, .error (.invalidArgument "phoneNumber"), []⟩
  else if pool_id = "" then ⟨c, .error (.invalidArgument "poolID"), []⟩
  else
    let headers := [("Authorization", "Bearer " ++ c.jwt)]
    let call_data := [("phone_number", phone_number)]
    let method :=
      if use_six_digits then "pool/" ++ pool_id ++ "/call/six-digits"
      else "pool/" ++ pool_id ++ "/call"
    let uri := c.make_full_uri method
    let req : HttpRequest := ⟨.post, uri, headers, call_data⟩
    match out with
    | .response r =>
        if r.statusCode ≠ 201 then
          ⟨c, .error (.requestIncorrectStatus r.statusCode (some "call")), [req]⟩
        else
          ⟨c, .ok r.body, [req]⟩
    | .fault e => ⟨c, .error (.transportError .call e), [req]⟩

/-- `Client.call_with_code`: validate all three arguments, POST
`{phone_number, code, lang}` to `.../code/call/`; same outcome contract as
`Client.call`. -/
def Client.call_with_code (c : Client)
    (phone_number code lang : String) (out : Outcome) : OpResult :=
  if phone_number = "" then ⟨c, .error (.invalidArgument "phoneNumber"), []⟩
  else if code = "" then ⟨c, .error (.invalidArgument "code"), []⟩
  else if lang = "" then ⟨c, .error (.invalidArgument "lang"), []⟩
  else
    let headers := [("Authorization", "Bearer " ++ c.jwt)]
    let call_data := [("phone_number", phone_number), ("code", code), ("lang", lang)]
    let uri := c.make_full_uri "code/call"
    let req : HttpRequest := ⟨.post, uri, headers, call_data⟩
    match out with
    | .response r =>
        if r.statusCode ≠ 201 then
          ⟨c, .error (.requestIncorrectStatus r.statusCode (some "call")), [req]⟩
        else
          ⟨c, .ok r.body, [req]⟩
    | .fault e => ⟨c, .error (.transportError .call e), [req]⟩

/-- `Client.info`: validate the call id, GET `.../call/{call_id}/` with the
bearer header; 200 returns the decoded body, any other status fails with the
status error (naming no step), a transport fault fails with the wrapped
cause. -/
def Client.info (c : Client) (call_id : String) (out : Outcome) : OpResult :=
  if call_id = "" then ⟨c, .error (.invalidArgument "id"), []⟩
  else
    let headers := [("Authorization", "Bearer " ++ c.jwt)]
    let uri := c.make_full_uri ("call/" ++ call_id)
    let req : HttpRequest := ⟨.get, uri, headers, []⟩
    match out with
    | .response r =>
        if r.statusCode ≠ 200 then
          ⟨c, .error (.requestIncorrectStatus r.statusCode none), [req]⟩
        else
          ⟨c, .ok r.body, [req]⟩
    | .fault e => ⟨c, .error (.transportError .info e), [req]⟩

/-- The `version` property getter. -/
def Client.get_version (c : Client) : String :=
  c.version

/-- The `version` property setter: stores the value with no validation. -/
def Client.set_version (c : Client) (value : String) : Client :=
  { c with version := value }

/-- A concrete authenticated client, as produced by a successful construction
whose authentication returned the token `"abc"`. -/
def testClient : Client :=
  ⟨"user", "secret", "v1", base_uri_const, "abc"⟩

/-- A concrete transport fault. -/
def downOut : Outcome :=
  .fault "connection refused"

/-!  ## Theorems  -/

/-- The authentication exchange issues exactly one request: the POST of the
credentials to the auth endpoint. -/
lemma receive_jwt_requests (l p v b : String) (out : Outcome) :
    (receive_jwt l p v b out).2 =
      [⟨.post, make_full_uri_parts b v "auth", [], [("login", l), ("password", p)]⟩] := by
  cases out with
  | response r =>
    by_cases h200 : r.statusCode = 200
    · rcases hj : r.body.get "jwt" with _ | j
      · simp [receive_jwt, h200, hj]
      · by_cases hje : j = "" <;> simp [receive_jwt, h200, hj, hje]
    · simp [receive_jwt, h200]
  | fault e => simp [receive_jwt]

/-- With non-empty credentials, construction issues exactly the one
authentication request, whatever the outcome. -/
lemma Client.init_requests (login password : String) (hl : login ≠ "")
    (hp : password ≠ "") (out : Outcome) :
    (Client.init login password out).2 =
      [⟨.post, make_full_uri_parts base_uri_const "v1" "auth", [],
        [("login", login), ("password", password)]⟩] := by
  unfold Client.init
  rw [if_neg hl, if_neg hp]
  rcases hr : receive_jwt login password "v1" base_uri_const out with ⟨res, reqs⟩
  have h2 := receive_jwt_requests login password "v1" base_uri_const out
  rw [hr] at h2
  cases res <;> simpa using h2

/-- Anatomy of a successful construction: the credentials were non-empty, the
outcome was a 200 response whose `jwt` field holds the stored non-empty
token, and the client is exactly the record `__init__` builds. -/
lemma Client.init_ok_shape (login password : String) (out : Outcome) (c : Client)
    (reqs : List HttpRequest) (h : Client.init login password out = (.ok c, reqs)) :
    login ≠ "" ∧ password ≠ "" ∧
    ∃ r, out = .response r ∧ r.statusCode = 200 ∧ r.body.get "jwt" = some c.jwt ∧
      c.jwt ≠ "" ∧ c = ⟨login, password, "v1", base_uri_const, c.jwt⟩ := by
  by_cases hl : login = ""
  · simp [Client.init, hl] at h
  · by_cases hpw : password = ""
    · simp [Client.init, hl, hpw] at h
    · refine ⟨hl, hpw, ?_⟩
      cases out with
      | fault e => simp [Client.init, receive_jwt, hl, hpw] at h
      | response r =>
        by_cases h200 : r.statusCode = 200
        · rcases hj : r.body.get "jwt" with _ | j
          · simp [Client.init, receive_jwt, hl, hpw, h200, hj] at h
          · by_cases hje : j = ""
            · simp [Client.init, receive_jwt, hl, hpw, h200, hj, hje] at h
            · have hini : Client.init login password (.response r) =
                  (.ok ⟨login, password, "v1", base_uri_const, j⟩,
                   [⟨.post, make_full_uri_parts base_uri_const "v1" "auth", [],
                     [("login", login), ("password", password)]⟩]) := by
                simp [Client.init, receive_jwt, hl, hpw, h200, hj, hje]
              rw [hini] at h
              injection h with h1 h2
              injection h1 with h1
              subst h1
              exact ⟨r, rfl, h200, hj, hje, rfl⟩
        · simp [Client.init, receive_jwt, hl, hpw, h200] at h

/-- C1: every public operation given an empty required string argument fails
with an `invalidArgument` error and issues zero requests: validation completes
before any I/O. -/
theorem C1_empty_argument_invalid_no_io :
    (∀ login password out, login = "" ∨ password = "" →
      ∃ f, Client.init login password out = (.error (.invalidArgument f), [])) ∧
    (∀ (c : Client) cb out,
      (c.call "" cb out).result = .error (.invalidArgument "phoneNumber") ∧
      (c.call "" cb out).requests = []) ∧
    (∀ (c : Client) pn pool six out, pn = "" ∨ pool = "" →
      ∃ f, (c.call_via_last_digits pn pool six out).result = .error (.invalidArgument f) ∧
        (c.call_via_last_digits pn pool six out).requests = []) ∧
    (∀ (c : Client) pn code lang out, pn = "" ∨ code = "" ∨ lang = "" →
      ∃ f, (c.call_with_code pn code lang out).result = .error (.invalidArgument f) ∧
        (c.call_with_code pn code lang out).requests = []) ∧
    (∀ (c : Client) out,
      (c.info "" out).result = .error (.invalidArgument "id") ∧
      (c.info "" out).requests = []) := by
  refine ⟨?_, ?_, ?_, ?_, ?_⟩
  · intro login password out h
    rcases h with h | h
    · exact ⟨"login", by simp [Client.init, h]⟩
    · by_cases hl : login = ""
      · exact ⟨"login", by simp [Client.init, hl]⟩
      · exact ⟨"password", by simp [Client.init, hl, h]⟩
  · intro c cb out
    exact ⟨by simp [Client.call], by simp [Client.call]⟩
  · intro c pn pool six out h
    by_cases hp : pn = ""
    · exact ⟨"phoneNumber", by simp [Client.call_via_last_digits, hp],
        by simp [Client.call_via_last_digits, hp]⟩
    · rcases h with h | h
      · exact absurd h hp
      · exact ⟨"poolID", by simp [Client.call_via_last_digits, hp, h],
          by simp [Client.call_via_last_digits, hp, h]⟩
  · intro c pn code lang out h
    by_cases hp : pn = ""
    · exact ⟨"phoneNumber", by simp [Client.call_with_code, hp],
        by simp [Client.call_with_code, hp]⟩
    · by_cases hc : code = ""
      · exact ⟨"code", by simp [Client.call_with_code, hp, hc],
          by simp [Client.call_with_code, hp, hc]⟩
      · rcases h with h | h | h
        · exact absurd h hp
        · exact absurd h hc
        · exact ⟨"lang", by simp [Client.call_with_code, hp, hc, h],
            by simp [Client.call_with_code, hp, hc, h]⟩
  · intro c out
    exact ⟨by simp [Client.info], by simp [Client.info]⟩

/-- Witness for C1 at concrete inputs: empty login on construction, empty
phone number on the pool call, empty code on the code call. -/
theorem C1_empty_argument_invalid_no_io_witness :
    (∃ f, Client.init "" "secret" downOut = (.error (.invalidArgument f), [])) ∧
    (∃ f, (testClient.call_via_last_digits "" "100" false downOut).result =
        .error (.invalidArgument f) ∧
      (testClient.call_via_last_digits "" "100" false downOut).requests = []) ∧
    (∃ f, (testClient.call_with_code "+1555" "" "uk" downOut).result =
        .error (.invalidArgument f) ∧
      (testClient.call_with_code "+1555" "" "uk" downOut).requests = []) :=
  ⟨C1_empty_argument_invalid_no_io.1 "" "secret" downOut (Or.inl rfl),
   C1_empty_argument_invalid_no_io.2.2.1 testClient "" "100" false downOut (Or.inl rfl),
   C1_empty_argument_invalid_no_io.2.2.2.1 testClient "+1555" "" "uk" downOut
     (Or.inr (Or.inl rfl))⟩

/-- C2: with non-empty credentials, construction succeeds exactly on an HTTP
200 response whose `jwt` field is present and non-empty, storing that token;
a non-200 status fails with the authentication status error carrying the
code; a 200 response with a missing or empty `jwt` fails with the JWT-missing
error; a transport fault fails wrapped as a transport error.  The
authentication-side errors classify as `authenticationFailed` and the wrapped
fault as `transportError`. -/
theorem C2_authentication_contract (login password : String)
    (hl : login ≠ "") (hp : password ≠ "") :
    (∀ r j, r.statusCode = 200 → r.body.get "jwt" = some j → j ≠ "" →
      Client.init login password (.response r) =
        (.ok ⟨login, password, "v1", base_uri_const, j⟩,
         [⟨.post, make_full_uri_parts base_uri_const "v1" "auth", [],
           [("login", login), ("password", password)]⟩])) ∧
    (∀ r, r.statusCode = 200 →
      r.body.get "jwt" = none ∨ r.body.get "jwt" = some "" →
      (Client.init login password (.response r)).1 = .error .authJwtMissing) ∧
    (∀ r, r.statusCode ≠ 200 →
      (Client.init login password (.response r)).1 =
        .error (.authIncorrectStatus r.statusCode)) ∧
    (∀ e, (Client.init login password (.fault e)).1 =
      .error (.transportError .authorization e)) ∧
    (∀ s, (ClientError.authIncorrectStatus s).kind = .authenticationFailed) ∧
    ClientError.authJwtMissing.kind = .authenticationFailed ∧
    (∀ site e, (ClientError.transportError site e).kind = .transportError) ∧
    (∀ out c reqs, Client.init login password out = (.ok c, reqs) →
      ∃ r, out = .response r ∧ r.statusCode = 200 ∧ c.jwt ≠ "" ∧
        r.body.get "jwt" = some c.jwt) := by
  refine ⟨?_, ?_, ?_, ?_, ?_, rfl, ?_, ?_⟩
  · intro r j h200 hj hjne
    simp [Client.init, receive_jwt, hl, hp, h200, hj, hjne]
  · intro r h200 hj
    rcases hj with hj | hj <;>
      simp [Client.init, receive_jwt, hl, hp, h200, hj]
  · intro r h200
    simp [Client.init, receive_jwt, hl, hp, h200]
  · intro e
    simp [Client.init, receive_jwt, hl, hp]
  · intro s
    rfl
  · intro site e
    rfl
  · intro out c reqs h
    cases out with
    | fault e => simp [Client.init, receive_jwt, hl, hp] at h
    | response r =>
      by_cases h200 : r.statusCode = 200
      · rcases hj : r.body.get "jwt" with _ | j
        · simp [Client.init, receive_jwt, hl, hp, h200, hj] at h
        · by_cases hje : j = ""
          · simp [Client.init, receive_jwt, hl, hp, h200, hj, hje] at h
          · have hini : Client.init login password (.response r) =
                (.ok ⟨login, password, "v1", base_uri_const, j⟩,
                 [⟨.post, make_full_uri_parts base_uri_const "v1" "auth", [],
                   [("login", login), ("password", password)]⟩]) := by
              simp [Client.init, receive_jwt, hl, hp, h200, hj, hje]
            rw [hini] at h
            injection h with h1 h2
            injection h1 with h1
            subst h1
            exact ⟨r, rfl, h200, hje, hj⟩
      · simp [Client.init, receive_jwt, hl, hp, h200] at h

/-- Witness for C2: on `200 {"jwt": "abc"}` construction stores `"abc"`; on a
`403` it fails carrying the status code. -/
theorem C2_authentication_contract_witness :
    Client.init "user" "secret" (.response ⟨200, [("jwt", "abc")]⟩) =
      (.ok ⟨"user", "secret", "v1", base_uri_const, "abc"⟩,
       [⟨.post, make_full_uri_parts base_uri_const "v1" "auth", [],
         [("login", "user"), ("password", "secret")]⟩]) ∧
    (Client.init "user" "secret" (.response ⟨403, []⟩)).1 =
      .error (.authIncorrectStatus 403) :=
  ⟨(C2_authentication_contract "user" "secret" (by decide) (by decide)).1
      ⟨200, [("jwt", "abc")]⟩ "abc" rfl (by decide) (by decide),
   (C2_authentication_contract "user" "secret" (by decide) (by decide)).2.2.1
      ⟨403, []⟩ (by decide)⟩

/-- C3: every error classifies as exactly one of the four design kinds; every
operation result is either a returned mapping or a single error; and a
transport fault (no response at all) on any operation, construction included,
surfaces as a wrapped transport error. -/
theorem C3_total_error_classification :
    (∀ e : ClientError, e.kind = .invalidArgument ∨ e.kind = .authenticationFailed ∨
      e.kind = .requestFailed ∨ e.kind = .transportError) ∧
    (∀ login password out,
      (∃ c reqs, Client.init login password out = (.ok c, reqs)) ∨
      (∃ err reqs, Client.init login password out = (.error err, reqs))) ∧
    (∀ (c : Client) pn cb out,
      (∃ m, (c.call pn cb out).result = .ok m) ∨
      (∃ err, (c.call pn cb out).result = .error err)) ∧
    (∀ login password e, login ≠ "" → password ≠ "" →
      (Client.init login password (.fault e)).1 =
        .error (.transportError .authorization e)) ∧
    (∀ (c : Client) pn cb e, pn ≠ "" →
      (c.call pn cb (.fault e)).result = .error (.transportError .call e)) ∧
    (∀ (c : Client) pn pool six e, pn ≠ "" → pool ≠ "" →
      (c.call_via_last_digits pn pool six (.fault e)).result =
        .error (.transportError .call e)) ∧
    (∀ (c : Client) pn code lang e, pn ≠ "" → code ≠ "" → lang ≠ "" →
      (c.call_with_code pn code lang (.fault e)).result =
        .error (.transportError .call e)) ∧
    (∀ (c : Client) cid e, cid ≠ "" →
      (c.info cid (.fault e)).result = .error (.transportError .info e)) := by
  refine ⟨?_, ?_, ?_, ?_, ?_, ?_, ?_, ?_⟩
  · intro e
    cases e <;> simp [ClientError.kind]
  · intro login password out
    rcases h : Client.init login password out with ⟨res, reqs⟩
    cases res with
    | ok c => exact Or.inl ⟨c, reqs, rfl⟩
    | error err => exact Or.inr ⟨err, reqs, rfl⟩
  · intro c pn cb out
    cases h : (c.call pn cb out).result with
    | ok m => exact Or.inl ⟨m, rfl⟩
    | error err => exact Or.inr ⟨err, rfl⟩
  · intro login password e hl hp
    simp [Client.init, receive_jwt, hl, hp]
  · intro c pn cb e hp
    simp [Client.call, hp]
  · intro c pn pool six e hp hq
    simp [Client.call_via_last_digits, hp, hq]
  · intro c pn code lang e hp hc hL
    simp [Client.call_with_code, hp, hc, hL]
  · intro c cid e hc
    simp [Client.info, hc]

/-- Witness for C3: a transport fault on `call` and on `info` against a
concrete client surfaces the wrapped transport error. -/
theorem C3_total_error_classification_witness :
    (testClient.call "+1555" "" downOut).result =
      .error (.transportError .call "connection refused") ∧
    (testClient.info "95818344" downOut).result =
      .error (.transportError .info "connection refused") :=
  ⟨C3_total_error_classification.2.2.2.2.1 testClient "+1555" "" "connection refused"
      (by decide),
   C3_total_error_classification.2.2.2.2.2.2.2 testClient "95818344" "connection refused"
      (by decide)⟩

/-- C4: with valid arguments, each of the four authenticated operations
issues exactly one request whose headers dict is exactly
`{"Authorization": "Bearer " + jwt}`. -/
theorem C4_bearer_authorization_header (c : Client) :
    (∀ pn cb out, pn ≠ "" →
      (c.call pn cb out).requests.map HttpRequest.headers =
        [[("Authorization", "Bearer " ++ c.jwt)]]) ∧
    (∀ pn pool six out, pn ≠ "" → pool ≠ "" →
      (c.call_via_last_digits pn pool six out).requests.map HttpRequest.headers =
        [[("Authorization", "Bearer " ++ c.jwt)]]) ∧
    (∀ pn code lang out, pn ≠ "" → code ≠ "" → lang ≠ "" →
      (c.call_with_code pn code lang out).requests.map HttpRequest.headers =
        [[("Authorization", "Bearer " ++ c.jwt)]]) ∧
    (∀ cid out, cid ≠ "" →
      (c.info cid out).requests.map HttpRequest.headers =
        [[("Authorization", "Bearer " ++ c.jwt)]]) := by
  refine ⟨?_, ?_, ?_, ?_⟩
  · intro pn cb out hp
    cases out with
    | response r =>
      by_cases h201 : r.statusCode = 201 <;> simp [Client.call, hp, h201]
    | fault e => simp [Client.call, hp]
  · intro pn pool six out hp hq
    cases out with
    | response r =>
      by_cases h201 : r.statusCode = 201 <;>
        simp [Client.call_via_last_digits, hp, hq, h201]
    | fault e => simp [Client.call_via_last_digits, hp, hq]
  · intro pn code lang out hp hc hL
    cases out with
    | response r =>
      by_cases h201 : r.statusCode = 201 <;>
        simp [Client.call_with_code, hp, hc, hL, h201]
    | fault e => simp [Client.call_with_code, hp, hc, hL]
  · intro cid out hc
    cases out with
    | response r =>
      by_cases h200 : r.statusCode = 200 <;> simp [Client.info, hc, h200]
    | fault e => simp [Client.info, hc]

/-- Witness for C4: a client whose stored token is `"abc"` sends header value
`"Bearer abc"` on `call` and on `info`. -/
theorem C4_bearer_authorization_header_witness :
    (testClient.call "+1555" "" downOut).requests.map HttpRequest.headers =
      [[("Authorization", "Bearer abc")]] ∧
    (testClient.info "95818344" downOut).requests.map HttpRequest.headers =
      [[("Authorization", "Bearer abc")]] :=
  ⟨(C4_bearer_authorization_header testClient).1 "+1555" "" downOut (by decide),
   (C4_bearer_authorization_header testClient).2.2.2 "95818344" downOut (by decide)⟩

/-- C5: with a non-empty phone number, `call` POSTs
`{phone_number, callback_url}` to the `call` endpoint with the bearer header;
a 201 returns the decoded body verbatim, any other status fails with the
request-status error carrying the code and naming the "call" step (a
`requestFailed`-kind error), and a transport fault fails wrapped. -/
theorem C5_call_contract (c : Client) (pn cb : String) (hp : pn ≠ "") :
    (∀ out, (c.call pn cb out).requests =
      [⟨.post, c.make_full_uri "call", [("Authorization", "Bearer " ++ c.jwt)],
        [("phone_number", pn), ("callback_url", cb)]⟩]) ∧
    c.make_full_uri "call" = c.base_uri ++ "/" ++ c.version ++ "/call/" ∧
    (∀ r, r.statusCode = 201 → (c.call pn cb (.response r)).result = .ok r.body) ∧
    (∀ r, r.statusCode ≠ 201 →
      (c.call pn cb (.response r)).result =
        .error (.requestIncorrectStatus r.statusCode (some "call"))) ∧
    (∀ s, (ClientError.requestIncorrectStatus s (some "call")).kind = .requestFailed) ∧
    (∀ s, (ClientError.requestIncorrectStatus s (some "call")).message =
      "Incorrect status code: " ++ toString s ++ " on call step") ∧
    (∀ e, (c.call pn cb (.fault e)).result = .error (.transportError .call e)) := by
  refine ⟨?_, ?_, ?_, ?_, ?_, ?_, ?_⟩
  · intro out
    cases out with
    | response r =>
      by_cases h201 : r.statusCode = 201 <;> simp [Client.call, hp, h201]
    | fault e => simp [Client.call, hp]
  · unfold Client.make_full_uri make_full_uri_parts
    simp only [String.append_assoc]
    rfl
  · intro r h201
    simp [Client.call, hp, h201]
  · intro r h201
    simp [Client.call, hp, h201]
  · intro s
    rfl
  · intro s
    rfl
  · intro e
    simp [Client.call, hp]

/-- Witness for C5: `call("+1555", "")` against `201 {"call_id": "95818344"}`
returns that mapping; against a `500` it fails with the status error naming
the "call" step. -/
theorem C5_call_contract_witness :
    (testClient.call "+1555" "" (.response ⟨201, [("call_id", "95818344")]⟩)).result =
      .ok [("call_id", "95818344")] ∧
    (testClient.call "+1555" "" (.response ⟨500, []⟩)).result =
      .error (.requestIncorrectStatus 500 (some "call")) :=
  ⟨(C5_call_contract testClient "+1555" "" (by decide)).2.2.1
      ⟨201, [("call_id", "95818344")]⟩ rfl,
   (C5_call_contract testClient "+1555" "" (by decide)).2.2.2.1
      ⟨500, []⟩ (by decide)⟩

/-- C6 (amended): with a non-empty call id, `info` GETs the call endpoint
with the bearer header; a 200 returns the decoded body, any other status
fails with the request-status error carrying the code but naming no step
(its message is exactly "Incorrect status code: {status}", with no step
designator), and a transport fault fails wrapped. -/
theorem C6_info_contract (c : Client) (cid : String) (hc : cid ≠ "") :
    (∀ out, (c.info cid out).requests =
      [⟨.get, c.make_full_uri ("call/" ++ cid),
        [("Authorization", "Bearer " ++ c.jwt)], []⟩]) ∧
    c.make_full_uri ("call/" ++ cid) =
      c.base_uri ++ "/" ++ c.version ++ "/call/" ++ cid ++ "/" ∧
    (∀ r, r.statusCode = 200 → (c.info cid (.response r)).result = .ok r.body) ∧
    (∀ r, r.statusCode ≠ 200 →
      (c.info cid (.response r)).result =
        .error (.requestIncorrectStatus r.statusCode none)) ∧
    (∀ s, (ClientError.requestIncorrectStatus s none).kind = .requestFailed) ∧
    (∀ s, (ClientError.requestIncorrectStatus s none).message =
      "Incorrect status code: " ++ toString s) ∧
    (∀ e, (c.info cid (.fault e)).result = .error (.transportError .info e)) := by
  refine ⟨?_, ?_, ?_, ?_, ?_, ?_, ?_⟩
  · intro out
    cases out with
    | response r =>
      by_cases h200 : r.statusCode = 200 <;> simp [Client.info, hc, h200]
    | fault e => simp [Client.info, hc]
  · unfold Client.make_full_uri make_full_uri_parts
    simp only [String.append_assoc]
    rfl
  · intro r h200
    simp [Client.info, hc, h200]
  · intro r h200
    simp [Client.info, hc, h200]
  · intro s
    rfl
  · intro s
    simp [ClientError.message]
  · intro e
    simp [Client.info, hc]

/-- Counterexample for C6 as stated: on a 500 response `info` raises
"Incorrect status code: 500" — an error carrying the status code but no step
designator, not one carrying step "info" (the call operations, by contrast,
do name their step). -/
theorem C6_info_step_counterexample :
    (testClient.info "95818344" (.response ⟨500, []⟩)).result =
      .error (.requestIncorrectStatus 500 none) ∧
    (testClient.info "95818344" (.response ⟨500, []⟩)).result ≠
      .error (.requestIncorrectStatus 500 (some "info")) ∧
    (ClientError.requestIncorrectStatus 500 none).message =
      "Incorrect status code: 500" := by
  refine ⟨rfl, ?_, rfl⟩
  intro h
  rw [show (testClient.info "95818344" (.response ⟨500, []⟩)).result =
      .error (.requestIncorrectStatus 500 none) from rfl] at h
  injection h with h
  injection h with h1 h2
  exact Option.noConfusion h2

/-- Witness for C6 (amended): `info` on a 200 returns the body; on a 500 the
error carries the status and no step. -/
theorem C6_info_contract_witness :
    (testClient.info "95818344" (.response ⟨200, [("state", "answer")]⟩)).result =
      .ok [("state", "answer")] ∧
    (testClient.info "95818344" (.response ⟨502, []⟩)).result =
      .error (.requestIncorrectStatus 502 none) :=
  ⟨(C6_info_contract testClient "95818344" (by decide)).2.2.1
      ⟨200, [("state", "answer")]⟩ rfl,
   (C6_info_contract testClient "95818344" (by decide)).2.2.2.1
      ⟨502, []⟩ (by decide)⟩

/-- C7: with non-empty phone number and pool id, the pool call targets the
full URI `{base_uri}/{version}/pool/{poolId}/call/six-digits/` when the
six-digit flag is set and `{base_uri}/{version}/pool/{poolId}/call/` when it
is not. -/
theorem C7_pool_endpoint_paths (c : Client) (pn pool : String)
    (hp : pn ≠ "") (hq : pool ≠ "") (out : Outcome) :
    (c.call_via_last_digits pn pool true out).requests.map HttpRequest.uri =
      [c.base_uri ++ "/" ++ c.version ++ "/pool/" ++ pool ++ "/call/six-digits/"] ∧
    (c.call_via_last_digits pn pool false out).requests.map HttpRequest.uri =
      [c.base_uri ++ "/" ++ c.version ++ "/pool/" ++ pool ++ "/call/"] := by
  have hsix : c.make_full_uri ("pool/" ++ pool ++ "/call/six-digits") =
      c.base_uri ++ "/" ++ c.version ++ "/pool/" ++ pool ++ "/call/six-digits/" := by
    unfold Client.make_full_uri make_full_uri_parts
    simp only [String.append_assoc]
    rfl
  have hplain : c.make_full_uri ("pool/" ++ pool ++ "/call") =
      c.base_uri ++ "/" ++ c.version ++ "/pool/" ++ pool ++ "/call/" := by
    unfold Client.make_full_uri make_full_uri_parts
    simp only [String.append_assoc]
    rfl
  constructor
  · cases out with
    | response r =>
      by_cases h201 : r.statusCode = 201 <;>
        simp [Client.call_via_last_digits, hp, hq, h201, hsix]
    | fault e => simp [Client.call_via_last_digits, hp, hq, hsix]
  · cases out with
    | response r =>
      by_cases h201 : r.statusCode = 201 <;>
        simp [Client.call_via_last_digits, hp, hq, h201, hplain]
    | fault e => simp [Client.call_via_last_digits, hp, hq, hplain]

/-- Witness for C7 at concrete inputs: pool "100" yields the two literal
URIs. -/
theorem C7_pool_endpoint_paths_witness :
    (testClient.call_via_last_digits "+1555" "100" true downOut).requests.map
        HttpRequest.uri =
      ["https://api-call2fa.rikkicom.io/v1/pool/100/call/six-digits/"] ∧
    (testClient.call_via_last_digits "+1555" "100" false downOut).requests.map
        HttpRequest.uri =
      ["https://api-call2fa.rikkicom.io/v1/pool/100/call/"] :=
  ⟨(C7_pool_endpoint_paths testClient "+1555" "100" (by decide) (by decide)
      downOut).1,
   (C7_pool_endpoint_paths testClient "+1555" "100" (by decide) (by decide)
      downOut).2⟩

/-- C8: reading the version property returns the stored version, `"v1"` on
every freshly constructed client; writing any string replaces it with no
validation, and every URI subsequently constructed — by `_make_full_uri` and
hence by every operation — uses the new value as the version segment. -/
theorem C8_version_read_write (c : Client) (v m : String) :
    c.get_version = c.version ∧
    (c.set_version v).get_version = v ∧
    (c.set_version v).make_full_uri m = c.base_uri ++ "/" ++ v ++ "/" ++ m ++ "/" ∧
    (∀ pn cb out, pn ≠ "" →
      ((c.set_version v).call pn cb out).requests.map HttpRequest.uri =
        [c.base_uri ++ "/" ++ v ++ "/call/"]) ∧
    (∀ login password out cl reqs, Client.init login password out = (.ok cl, reqs) →
      cl.get_version = "v1") := by
  refine ⟨rfl, rfl, rfl, ?_, ?_⟩
  · intro pn cb out hp
    have huri : (c.set_version v).make_full_uri "call" =
        c.base_uri ++ "/" ++ v ++ "/call/" := by
      unfold Client.set_version Client.make_full_uri make_full_uri_parts
      simp only [String.append_assoc]
      rfl
    cases out with
    | response r =>
      by_cases h201 : r.statusCode = 201 <;>
        simp [Client.call, hp, h201, huri]
    | fault e => simp [Client.call, hp, huri]
  · intro login password out cl reqs h
    obtain ⟨-, -, r, -, -, -, -, hcl⟩ := Client.init_ok_shape login password out cl reqs h
    exact congrArg Client.version hcl

/-- Witness for C8: after setting version `"v2"`, `call` targets `/v2/`; a
fresh client reads version `"v1"`. -/
theorem C8_version_read_write_witness :
    ((testClient.set_version "v2").call "+1555" "" downOut).requests.map
        HttpRequest.uri =
      ["https://api-call2fa.rikkicom.io/v2/call/"] ∧
    testClient.get_version = "v1" :=
  ⟨(C8_version_read_write testClient "v2" "call").2.2.2.1 "+1555" "" downOut
      (by decide),
   (C8_version_read_write testClient "v1" "call").1⟩

/-- C9: a successfully constructed client holds a non-empty token and the
credentials it was given, and construction only succeeds when authentication
returned a 200; no public operation changes the client — the call operations
and `info` pass it through unchanged, and the version setter leaves the token
and credentials intact. -/
theorem C9_authenticated_state_terminal :
    (∀ login password out cl reqs, Client.init login password out = (.ok cl, reqs) →
      cl.jwt ≠ "" ∧ cl.api_login = login ∧ cl.api_password = password ∧
      ∃ r, out = .response r ∧ r.statusCode = 200) ∧
    (∀ (c : Client) pn cb out, (c.call pn cb out).client = c) ∧
    (∀ (c : Client) pn pool six out, (c.call_via_last_digits pn pool six out).client = c) ∧
    (∀ (c : Client) pn code lang out, (c.call_with_code pn code lang out).client = c) ∧
    (∀ (c : Client) cid out, (c.info cid out).client = c) ∧
    (∀ (c : Client) v, (c.set_version v).jwt = c.jwt ∧
      (c.set_version v).api_login = c.api_login ∧
      (c.set_version v).api_password = c.api_password) := by
  refine ⟨?_, ?_, ?_, ?_, ?_, ?_⟩
  · intro login password out cl reqs h
    obtain ⟨-, -, r, hr, h200, -, hne, hcl⟩ :=
      Client.init_ok_shape login password out cl reqs h
    exact ⟨hne, congrArg Client.api_login hcl, congrArg Client.api_password hcl,
      r, hr, h200⟩
  · intro c pn cb out
    cases out with
    | response r =>
      by_cases hp : pn = ""
      · simp [Client.call, hp]
      · by_cases h201 : r.statusCode = 201 <;> simp [Client.call, hp, h201]
    | fault e =>
      by_cases hp : pn = "" <;> simp [Client.call, hp]
  · intro c pn pool six out
    cases out with
    | response r =>
      by_cases hp : pn = ""
      · simp [Client.call_via_last_digits, hp]
      · by_cases hq : pool = ""
        · simp [Client.call_via_last_digits, hp, hq]
        · by_cases h201 : r.statusCode = 201 <;>
            simp [Client.call_via_last_digits, hp, hq, h201]
    | fault e =>
      by_cases hp : pn = "" <;> by_cases hq : pool = "" <;>
        simp [Client.call_via_last_digits, hp, hq]
  · intro c pn code lang out
    cases out with
    | response r =>
      by_cases hp : pn = ""
      · simp [Client.call_with_code, hp]
      · by_cases hc : code = ""
        · simp [Client.call_with_code, hp, hc]
        · by_cases hL : lang = ""
          · simp [Client.call_with_code, hp, hc, hL]
          · by_cases h201 : r.statusCode = 201 <;>
              simp [Client.call_with_code, hp, hc, hL, h201]
    | fault e =>
      by_cases hp : pn = "" <;> by_cases hc : code = "" <;>
        by_cases hL : lang = "" <;> simp [Client.call_with_code, hp, hc, hL]
  · intro c cid out
    cases out with
    | response r =>
      by_cases hc : cid = ""
      · simp [Client.info, hc]
      · by_cases h200 : r.statusCode = 200 <;> simp [Client.info, hc, h200]
    | fault e =>
      by_cases hc : cid = "" <;> simp [Client.info, hc]
  · intro c v
    exact ⟨rfl, rfl, rfl⟩

/-- Witness for C9: constructing against `200 {"jwt": "abc"}` yields exactly
`testClient`, whose token is non-empty; operations and the version setter
leave it intact. -/
theorem C9_authenticated_state_terminal_witness :
    (testClient.jwt ≠ "" ∧ testClient.api_login = "user" ∧
      testClient.api_password = "secret" ∧
      ∃ r, (Outcome.response ⟨200, [("jwt", "abc")]⟩) = .response r ∧
        r.statusCode = 200) ∧
    (testClient.call "+1555" "" downOut).client = testClient ∧
    (testClient.set_version "v2").jwt = testClient.jwt :=
  ⟨C9_authenticated_state_terminal.1 "user" "secret"
      (.response ⟨200, [("jwt", "abc")]⟩) testClient
      [⟨.post, make_full_uri_parts base_uri_const "v1" "auth", [],
        [("login", "user"), ("password", "secret")]⟩] rfl,
   C9_authenticated_state_terminal.2.1 testClient "+1555" "" downOut,
   (C9_authenticated_state_terminal.2.2.2.2.2 testClient "v2").1⟩

/-- C10: each emptiness check rejects exactly the empty string — an operation
issues its request precisely when every required argument is non-empty — so
whitespace-only arguments such as a single space pass validation and the
request goes out (shown for each operation at the single-space input). -/
theorem C10_whitespace_passes_validation :
    (∀ login password out, (Client.init login password out).2 ≠ [] ↔
      (login ≠ "" ∧ password ≠ "")) ∧
    (∀ (c : Client) pn cb out, (c.call pn cb out).requests ≠ [] ↔ pn ≠ "") ∧
    (∀ (c : Client) pn pool six out,
      (c.call_via_last_digits pn pool six out).requests ≠ [] ↔
        (pn ≠ "" ∧ pool ≠ "")) ∧
    (∀ (c : Client) pn code lang out,
      (c.call_with_code pn code lang out).requests ≠ [] ↔
        (pn ≠ "" ∧ code ≠ "" ∧ lang ≠ "")) ∧
    (∀ (c : Client) cid out, (c.info cid out).requests ≠ [] ↔ cid ≠ "") ∧
    (Client.init " " " " downOut).2 ≠ [] ∧
    (testClient.call " " " " downOut).requests ≠ [] ∧
    (testClient.call_via_last_digits " " " " false downOut).requests ≠ [] ∧
    (testClient.call_with_code " " " " " " downOut).requests ≠ [] ∧
    (testClient.info " " downOut).requests ≠ [] := by
  have hinit : ∀ login password out, (Client.init login password out).2 ≠ [] ↔
      (login ≠ "" ∧ password ≠ "") := by
    intro login password out
    by_cases hl : login = ""
    · simp [Client.init, hl]
    · by_cases hpw : password = ""
      · simp [Client.init, hl, hpw]
      · rw [Client.init_requests login password hl hpw out]
        simp [hl, hpw]
  have hcall : ∀ (c : Client) pn cb out,
      (c.call pn cb out).requests ≠ [] ↔ pn ≠ "" := by
    intro c pn cb out
    by_cases hp : pn = ""
    · simp [Client.call, hp]
    · cases out with
      | response r =>
        by_cases h201 : r.statusCode = 201 <;> simp [Client.call, hp, h201]
      | fault e => simp [Client.call, hp]
  have hpool : ∀ (c : Client) pn pool six out,
      (c.call_via_last_digits pn pool six out).requests ≠ [] ↔
        (pn ≠ "" ∧ pool ≠ "") := by
    intro c pn pool six out
    by_cases hp : pn = ""
    · simp [Client.call_via_last_digits, hp]
    · by_cases hq : pool = ""
      · simp [Client.call_via_last_digits, hp, hq]
      · cases out with
        | response r =>
          by_cases h201 : r.statusCode = 201 <;>
            simp [Client.call_via_last_digits, hp, hq, h201]
        | fault e => simp [Client.call_via_last_digits, hp, hq]
  have hcode : ∀ (c : Client) pn code lang out,
      (c.call_with_code pn code lang out).requests ≠ [] ↔
        (pn ≠ "" ∧ code ≠ "" ∧ lang ≠ "") := by
    intro c pn code lang out
    by_cases hp : pn = ""
    · simp [Client.call_with_code, hp]
    · by_cases hc : code = ""
      · simp [Client.call_with_code, hp, hc]
      · by_cases hL : lang = ""
        · simp [Client.call_with_code, hp, hc, hL]
        · cases out with
          | response r =>
            by_cases h201 : r.statusCode = 201 <;>
              simp [Client.call_with_code, hp, hc, hL, h201]
          | fault e => simp [Client.call_with_code, hp, hc, hL]
  have hinfo : ∀ (c : Client) cid out,
      (c.info cid out).requests ≠ [] ↔ cid ≠ "" := by
    intro c cid out
    by_cases hc : cid = ""
    · simp [Client.info, hc]
    · cases out with
      | response r =>
        by_cases h200 : r.statusCode = 200 <;> simp [Client.info, hc, h200]
      | fault e => simp [Client.info, hc]
  refine ⟨hinit, hcall, hpool, hcode, hinfo, ?_, ?_, ?_, ?_, ?_⟩
  · exact (hinit " " " " downOut).mpr ⟨by decide, by decide⟩
  · exact (hcall testClient " " " " downOut).mpr (by decide)
  · exact (hpool testClient " " " " false downOut).mpr ⟨by decide, by decide⟩
  · exact (hcode testClient " " " " " " downOut).mpr ⟨by decide, by decide, by decide⟩
  · exact (hinfo testClient " " downOut).mpr (by decide)
